import Mathlib

/-!
Shallow embedding of the payloops/sdk-ts core: the webhook verifier
(`src/webhooks.ts`), the transport client's response/error classification
(`src/client.ts`), and the error taxonomy (`src/errors.ts`).

Strings are modelled by Lean `String`; the JavaScript string primitives the
source relies on (`split`, `trim`, `startsWith`, `slice`, `parseInt`,
truthiness of `string | undefined`, UTF-8 byte length of `Buffer.from`) are
modelled explicitly below over the underlying character lists. External
builtins that are not code of this repository — Node's
`crypto.createHmac(...).digest('hex')` and `JSON.parse` / `JSON.stringify` /
`response.json()` — are taken as abstract function parameters, so every
theorem quantifies over them.
-/

set_option maxRecDepth 10000

namespace PayloopsSdk

/-- Whitespace as stripped by the JS string primitives used in the source
(ASCII whitespace; the source never feeds non-ASCII whitespace to them). -/
def isJsSpace (c : Char) : Bool :=
  c = ' ' || c = '\t' || c = '\n' || c = '\r' || c = Char.ofNat 11 || c = Char.ofNat 12

/-- JS `String.prototype.split` with a one-character separator, on character
lists: `"".split(s) = [""]`, empty fields are kept (`"a,,b" → ["a","","b"]`). -/
def splitListOn (sep : Char) : List Char → List (List Char)
  | [] => [[]]
  | c :: cs =>
    let r := splitListOn sep cs
    if c = sep then [] :: r
    else (c :: r.headD []) :: r.tail

/-- JS `s.split(sep)` for a one-character separator. -/
def jsSplit (sep : Char) (s : String) : List String :=
  (splitListOn sep s.data).map String.mk

/-- Strip `isJsSpace` characters from both ends of a character list. -/
def trimList (l : List Char) : List Char :=
  ((l.dropWhile isJsSpace).reverse.dropWhile isJsSpace).reverse

/-- JS `s.trim()`. -/
def jsTrim (s : String) : String := String.mk (trimList s.data)

/-- JS `s.startsWith(p)`. -/
def startsWithJs (p s : String) : Bool := p.data.isPrefixOf s.data

/-- JS `s.slice(n)` for the ASCII prefixes it is applied to in the source. -/
def strDrop (n : Nat) (s : String) : String := String.mk (s.data.drop n)

/-- UTF-8 byte length of one scalar value, as produced by `Buffer.from(s)`. -/
def charUtf8Len (c : Char) : Nat :=
  if c.toNat < 128 then 1
  else if c.toNat < 2048 then 2
  else if c.toNat < 65536 then 3
  else 4

/-- Byte length of `Buffer.from(s)` (UTF-8 encoding of the string). -/
def utf8ByteLen (s : String) : Nat :=
  s.data.foldl (fun n c => n + charUtf8Len c) 0

/-- Value of a list of decimal digit characters, most significant first. -/
def natOfDigits (l : List Char) : Nat :=
  l.foldl (fun n c => n * 10 + (c.toNat - 48)) 0

/-- JS `parseInt(s, 10)`: skip leading whitespace, optional sign, read the
longest prefix of decimal digits and ignore the rest; `none` models `NaN`
(no digits found). Magnitudes in the source stay far below 2^53, so exact
integers model the JS doubles faithfully. -/
def parseIntJS (s : String) : Option Int :=
  let cs := s.data.dropWhile isJsSpace
  let neg : Bool := cs.headD ' ' = '-'
  let cs1 := if cs.headD ' ' = '-' || cs.headD ' ' = '+' then cs.tail else cs
  let ds := cs1.takeWhile Char.isDigit
  if ds = [] then none
  else some ((if neg then -1 else 1) * (natOfDigits ds : Int))

/-- Truthiness of a JS `string | undefined`: `undefined` and `""` are falsy.
Collapses a falsy value to `none` so use sites can pattern match. -/
def truthyVal : Option String → Option String
  | none => none
  | some s => if s = "" then none else some s

/-- Hex digit, as appearing in a `crypto` hex digest. -/
def isHexChar (c : Char) : Bool :=
  c.isDigit || ('a' ≤ c && c ≤ 'f') || ('A' ≤ c && c ≤ 'F')

/-! ## Webhook verifier (`src/webhooks.ts`, `Webhooks.verify`) -/

/-- One iteration of the header loop (webhooks.ts lines 26–32): trim the
part, split on `=`, destructure into the first two components, and update
the `t` / `v1` slots. A part with no `=` stores `none` (JS `undefined`),
overwriting any earlier value, exactly as the source's assignment does. -/
def sigEntryStep (acc : Option String × Option String) (part : String) :
    Option String × Option String :=
  let ps := jsSplit '=' (jsTrim part)
  let key := ps.headD ""
  let value := ps[1]?
  if key = "t" then (value, acc.2)
  else if key = "v1" then (acc.1, value)
  else acc

/-- The header loop of webhooks.ts lines 22–32: split on commas and fold,
returning the final (timestamp, v1Signature) pair of `string | undefined`. -/
def loopExtract (signature : String) : Option String × Option String :=
  (jsSplit ',' signature).foldl sigEntryStep (none, none)

/-- The `v1Signature` variable after the fallback of lines 35–37: if the
loop's value is falsy and the whole header starts with `v1=`, take
`signature.slice(3)`. -/
def rawV1 (signature : String) : Option String :=
  let v0 := (loopExtract signature).2
  match truthyVal v0 with
  | some v => some v
  | none => if startsWithJs "v1=" signature then some (strDrop 3 signature) else v0

/-- The `ts` value of lines 44–45: the loop's timestamp if truthy, else the
second `=`-field of the first untrimmed comma-part starting with `t=`. -/
def extractTs (signature : String) : Option String :=
  let t0 := (loopExtract signature).1
  match truthyVal t0 with
  | some t => some t
  | none =>
    match (jsSplit ',' signature).find? (fun p => startsWithJs "t=" p) with
    | some p => (jsSplit '=' p)[1]?
    | none => none

/-- Outcome of `Webhooks.verify`. `ok` is the normal return;
`invalidFormat`, `expired` and `invalidSignature` are the three `Error`
throws of the source; `jsonError` models `JSON.parse` throwing on the final
line; `rangeError` models the `RangeError` that Node's
`crypto.timingSafeEqual` throws when the two buffers differ in byte
length (webhooks.ts lines 66–69 pass the buffers with no length guard). -/
inductive VerifyOutcome (α : Type) where
  | ok (event : α)
  | jsonError
  | invalidFormat
  | expired
  | rangeError
  | invalidSignature
  deriving DecidableEq, Repr

/-- Lines 60–78 of webhooks.ts: compute the expected hex HMAC over the
signing payload, compare with `crypto.timingSafeEqual` over
`Buffer.from` of both strings (throwing `RangeError` on unequal byte
lengths), throw `'Invalid webhook signature'` on mismatch, else
`JSON.parse(payloadStr)`. `hmac secret msg` stands for
`crypto.createHmac('sha256', secret).update(msg).digest('hex')` and
`jsonParse` for `JSON.parse` (returning `none` when it would throw). -/
def compareAndParse {α : Type} (hmac : String → String → String)
    (jsonParse : String → Option α)
    (secret payload signingPayload v1 : String) : VerifyOutcome α :=
  if utf8ByteLen v1 = utf8ByteLen (hmac secret signingPayload) then
    if v1 = hmac secret signingPayload then
      match jsonParse payload with
      | some ev => .ok ev
      | none => .jsonError
    else .invalidSignature
  else .rangeError

/-- `Webhooks.verify` (webhooks.ts lines 16–78). `now` stands for
`Date.now()`; `payload` is the payload string (a `Buffer` payload is
decoded to the same string on line 19 before any other step). Steps in
source order: extract `v1Signature` and throw `'Invalid signature format'`
if falsy; extract `ts`; if `ts` is truthy, `parseInt` it and throw
`'Webhook timestamp too old'` when `|now - ts| > tolerance * 1000`
(`parseInt` yielding `NaN` makes the comparison false, so no throw); build
the signing payload `ts + '.' + payload` when `ts` is truthy, else the
payload alone; then compare and parse. -/
def verify {α : Type} (hmac : String → String → String)
    (jsonParse : String → Option α) (now : Int)
    (payload signature secret : String) (tolerance : Int) : VerifyOutcome α :=
  match truthyVal (rawV1 signature) with
  | none => .invalidFormat
  | some v1 =>
    match truthyVal (extractTs signature) with
    | none => compareAndParse hmac jsonParse secret payload payload v1
    | some ts =>
      match parseIntJS ts with
      | none => compareAndParse hmac jsonParse secret payload (ts ++ "." ++ payload) v1
      | some t =>
        if |now - t| > tolerance * 1000 then .expired
        else compareAndParse hmac jsonParse secret payload (ts ++ "." ++ payload) v1

/-- The signing payload of line 60 as a function of the extracted `ts`. -/
def signingStringOf (tso : Option String) (payload : String) : String :=
  match truthyVal tso with
  | some ts => ts ++ "." ++ payload
  | none => payload

/-- The extracted timestamp, if any, does not trigger the tolerance throw:
absent, non-numeric (`parseInt` = `NaN`), or within `tolerance * 1000`
milliseconds of `now`. -/
def withinWindow (tso : Option String) (now tolerance : Int) : Bool :=
  match truthyVal tso with
  | none => true
  | some ts =>
    match parseIntJS ts with
    | none => true
    | some t => decide (|now - t| ≤ tolerance * 1000)

/-! ## Error taxonomy (`src/errors.ts`) -/

/-- The observable data of a thrown `LoopError` (or subclass): the
`name` set in each constructor, plus `code`, `message` and `status`. -/
structure LoopErrorData where
  name : String
  code : String
  message : String
  status : Nat
  deriving DecidableEq, Repr

/-- `new LoopError(code, message, status)`. -/
def mkLoopError (code message : String) (status : Nat) : LoopErrorData :=
  ⟨"LoopError", code, message, status⟩

/-- `new AuthenticationError(message)`; the constructor's default message
is `'Invalid API key'`. -/
def mkAuthenticationError (message : String) : LoopErrorData :=
  ⟨"AuthenticationError", "authentication_error", message, 401⟩

/-- `new ValidationError(message)`. -/
def mkValidationError (message : String) : LoopErrorData :=
  ⟨"ValidationError", "validation_error", message, 400⟩

/-- `new NotFoundError(resource)`: message is the resource name followed by
`' not found'`. -/
def mkNotFoundError (resource : String) : LoopErrorData :=
  ⟨"NotFoundError", "not_found", resource ++ " not found", 404⟩

/-- `new RateLimitError()`. -/
def mkRateLimitError : LoopErrorData :=
  ⟨"RateLimitError", "rate_limit", "Too many requests", 429⟩

/-! ## Transport client (`src/client.ts`, `LoopClient.request`) -/

/-- What the awaited `fetch` call does: deliver an HTTP response
(status and raw body), reject with an `Error` named `'AbortError'`
(the timeout's `controller.abort()`), or reject with any other transport
failure — `some m` a rejection with an `Error` carrying message `m`,
`none` a rejected non-`Error` value. -/
inductive FetchOutcome where
  | response (status : Nat) (body : String)
  | abortError
  | transportError (message : Option String)
  deriving DecidableEq, Repr

/-- How a `request` call settles for its caller: a decoded success value,
the bodyless `undefined` return for 204, rejection with a `LoopError`, or —
because line 77 returns `response.json()` without `await`, so a rejection
of that promise is not caught by the surrounding `try`/`catch` — rejection
with the raw `SyntaxError` from decoding an invalid success body. -/
inductive RequestResult (α : Type) where
  | success (value : α)
  | noContent
  | failure (e : LoopErrorData)
  | uncaughtJsonError
  deriving DecidableEq, Repr

/-- `Response.ok`: status in the inclusive range 200–299. -/
def responseOk (status : Nat) : Bool := 200 ≤ status && status ≤ 299

/-- The JSON error body decoded on a non-success response: `code` and
`message` as read by client.ts lines 56–59 and 62–70. -/
structure ErrorBody where
  code : String
  message : String
  deriving DecidableEq, Repr

/-- The response-classification and catch logic of `LoopClient.request`
(client.ts lines 45–95), as a function of the `fetch` outcome.
`decodeErrorBody` stands for `response.json()` on the error path (its
`.catch` substitutes `{code:'unknown', message:'An error occurred'}` when
it rejects, i.e. on `none`); `decodeSuccess` stands for `response.json()`
on the success path (`none` when it would reject). On a non-ok status the
switch throws by status: 401, 400, 404 (with the fixed resource name
`'Resource'`), 429, else a generic `LoopError` with the body's code and
message and the response status; those `LoopError`s pass through the
`catch` unchanged via the `instanceof` rethrow. On 204 the call returns
`undefined` with no decoding. Otherwise the un-awaited `response.json()`
promise is returned: a decode failure there surfaces uncaught. An
`AbortError` rejection of `fetch` maps to the timeout `LoopError` and any
other transport rejection to the network `LoopError` with status 0, whose
message is the `Error`'s message or `'Network error'` for a non-`Error`. -/
def request {α : Type} (decodeErrorBody : String → Option ErrorBody)
    (decodeSuccess : String → Option α) (outcome : FetchOutcome) :
    RequestResult α :=
  match outcome with
  | .response status body =>
    if responseOk status then
      if status = 204 then .noContent
      else
        match decodeSuccess body with
        | some v => .success v
        | none => .uncaughtJsonError
    else
      let eb := (decodeErrorBody body).getD ⟨"unknown", "An error occurred"⟩
      if status = 401 then .failure (mkAuthenticationError eb.message)
      else if status = 400 then .failure (mkValidationError eb.message)
      else if status = 404 then .failure (mkNotFoundError "Resource")
      else if status = 429 then .failure mkRateLimitError
      else .failure (mkLoopError eb.code eb.message status)
  | .abortError => .failure (mkLoopError "timeout" "Request timed out" 408)
  | .transportError m =>
    .failure (mkLoopError "network_error" (m.getD "Network error") 0)

/-- Whether a `request` outcome is a thrown `LoopError` (of any kind). -/
def isLoopErrorResult {α : Type} : RequestResult α → Bool
  | .failure _ => true
  | _ => false

/-- The `body` field of the `fetch` options (client.ts line 47):
`method !== 'GET' ? JSON.stringify(body ?? {}) : undefined`. `stringify`
stands for `JSON.stringify` and `emptyObject` for the literal `{}` it is
given when the body argument is absent. -/
def outgoingBody {β : Type} (stringify : β → String) (emptyObject : β)
    (method : String) (body : Option β) : Option String :=
  if method ≠ "GET" then some (stringify (body.getD emptyObject)) else none

/-! ## Concrete instances used by the witnesses -/

/-- A 64-character hex string (the length of an HMAC-SHA256 hex digest). -/
def hexA64 : String := String.mk (List.replicate 64 'a')

/-- A second 64-character hex string, differing from `hexA64` in content. -/
def hexB64 : String := String.mk (List.replicate 64 'b')

/-- A stand-in for the hex HMAC oracle: constant 64-character hex output. -/
def hmacStub : String → String → String := fun _ _ => hexB64

/-- A stand-in for `JSON.parse` that returns the raw string as the event. -/
def jsonId : String → Option String := fun s => some s

/-- An error-body decoder that always fails (invalid JSON error body). -/
def decodeErrNone : String → Option ErrorBody := fun _ => none

/-- An error-body decoder returning a fixed backend error body. -/
def decodeErrConst : String → Option ErrorBody := fun _ => some ⟨"bad_thing", "it broke"⟩

/-- A success-body decoder that always fails (invalid JSON success body). -/
def decodeSuccNone : String → Option Unit := fun _ => none

/-- A trivial serializer for the witness of the request-body contract. -/
def stringifyUnit : Unit → String := fun _ => "\x7b\x7d"

/-! ## Helper lemmas on the JS string primitives -/

theorem string_eq_of_data {a b : String} (h : a.data = b.data) : a = b := by
  cases a; cases b; exact congrArg String.mk h

theorem data_append (a b : String) : (a ++ b).data = a.data ++ b.data := by
  cases a; cases b; rfl

theorem splitListOn_ne_nil (sep : Char) : ∀ l : List Char, splitListOn sep l ≠ []
  | [] => by simp [splitListOn]
  | c :: cs => by by_cases h : c = sep <;> simp [splitListOn, h]

theorem splitListOn_no_sep (sep : Char) :
    ∀ l : List Char, (∀ c ∈ l, c ≠ sep) → splitListOn sep l = [l]
  | [], _ => rfl
  | c :: cs, h => by
    have hc : c ≠ sep := h c (by simp)
    have ih := splitListOn_no_sep sep cs (fun x hx => h x (by simp [hx]))
    simp [splitListOn, hc, ih]

theorem splitListOn_append (sep : Char) :
    ∀ xs ys : List Char, (∀ c ∈ xs, c ≠ sep) →
      splitListOn sep (xs ++ sep :: ys) = xs :: splitListOn sep ys
  | [], ys, _ => by simp [splitListOn]
  | x :: xs, ys, h => by
    have hx : x ≠ sep := h x (by simp)
    have ih := splitListOn_append sep xs ys (fun c hc => h c (by simp [hc]))
    simp [splitListOn, hx, ih]

theorem dropWhile_all_false {p : Char → Bool} :
    ∀ l : List Char, (∀ c ∈ l, p c = false) → l.dropWhile p = l
  | [], _ => rfl
  | c :: cs, h => by simp [List.dropWhile_cons, h c (by simp)]

theorem takeWhile_all_true {p : Char → Bool} :
    ∀ l : List Char, (∀ c ∈ l, p c = true) → l.takeWhile p = l
  | [], _ => rfl
  | c :: cs, h => by
    simp [List.takeWhile_cons, h c (by simp),
      takeWhile_all_true cs (fun x hx => h x (by simp [hx]))]

theorem trimList_eq_self {l : List Char} (h : ∀ c ∈ l, isJsSpace c = false) :
    trimList l = l := by
  unfold trimList
  rw [dropWhile_all_false l h,
    dropWhile_all_false _ (fun c hc => h c (List.mem_reverse.mp hc)),
    List.reverse_reverse]

theorem digit_ne {c x : Char} (h : c.isDigit = true) (hx : x.isDigit = false) : c ≠ x :=
  fun heq => by rw [heq, hx] at h; exact Bool.false_ne_true h

theorem digit_not_space {c : Char} (h : c.isDigit = true) : isJsSpace c = false := by
  have h1 : c ≠ ' ' := digit_ne h (by decide)
  have h2 : c ≠ '\t' := digit_ne h (by decide)
  have h3 : c ≠ '\n' := digit_ne h (by decide)
  have h4 : c ≠ '\r' := digit_ne h (by decide)
  have h5 : c ≠ Char.ofNat 11 := digit_ne h (by decide)
  have h6 : c ≠ Char.ofNat 12 := digit_ne h (by decide)
  simp [isJsSpace, h1, h2, h3, h4, h5, h6]

theorem hex_ne {c x : Char} (h : isHexChar c = true) (hx : isHexChar x = false) : c ≠ x :=
  fun heq => by rw [heq, hx] at h; exact Bool.false_ne_true h

theorem hex_not_space {c : Char} (h : isHexChar c = true) : isJsSpace c = false := by
  have h1 : c ≠ ' ' := hex_ne h (by decide)
  have h2 : c ≠ '\t' := hex_ne h (by decide)
  have h3 : c ≠ '\n' := hex_ne h (by decide)
  have h4 : c ≠ '\r' := hex_ne h (by decide)
  have h5 : c ≠ Char.ofNat 11 := hex_ne h (by decide)
  have h6 : c ≠ Char.ofNat 12 := hex_ne h (by decide)
  simp [isJsSpace, h1, h2, h3, h4, h5, h6]

theorem parseIntJS_digits :
    ∀ l : List Char, l ≠ [] → (∀ c ∈ l, c.isDigit = true) →
      parseIntJS (String.mk l) = some (natOfDigits l)
  | [], h, _ => absurd rfl h
  | c :: cs, _, h2 => by
    have hc : c.isDigit = true := h2 c (by simp)
    have hdrop : (c :: cs).dropWhile isJsSpace = c :: cs :=
      dropWhile_all_false _ (fun x hx => digit_not_space (h2 x hx))
    have hmin : (c = '-') = False := by
      simp only [eq_iff_iff, iff_false]
      exact digit_ne hc (by decide)
    have hplus : (c = '+') = False := by
      simp only [eq_iff_iff, iff_false]
      exact digit_ne hc (by decide)
    have htake : (c :: cs).takeWhile Char.isDigit = c :: cs := takeWhile_all_true _ h2
    simp [parseIntJS, hdrop, hmin, hplus, htake]

/-! ## Lemmas about `compareAndParse` (webhooks.ts lines 60–78) -/

theorem compareAndParse_ne_expired {α : Type} (hmac : String → String → String)
    (jsonParse : String → Option α) (secret payload sp v1 : String) :
    compareAndParse hmac jsonParse secret payload sp v1 ≠ .expired := by
  unfold compareAndParse
  by_cases h1 : utf8ByteLen v1 = utf8ByteLen (hmac secret sp)
  · rw [if_pos h1]
    by_cases h2 : v1 = hmac secret sp
    · rw [if_pos h2]
      cases jsonParse payload <;> simp
    · rw [if_neg h2]; simp
  · rw [if_neg h1]; simp

theorem compareAndParse_len_ne {α : Type} (hmac : String → String → String)
    (jsonParse : String → Option α) (secret payload sp v1 : String)
    (h : utf8ByteLen v1 ≠ utf8ByteLen (hmac secret sp)) :
    compareAndParse hmac jsonParse secret payload sp v1 = .rangeError := by
  unfold compareAndParse
  rw [if_neg h]

theorem compareAndParse_content_ne {α : Type} (hmac : String → String → String)
    (jsonParse : String → Option α) (secret payload sp v1 : String)
    (hlen : utf8ByteLen v1 = utf8ByteLen (hmac secret sp))
    (hne : v1 ≠ hmac secret sp) :
    compareAndParse hmac jsonParse secret payload sp v1 = .invalidSignature := by
  unfold compareAndParse
  rw [if_pos hlen, if_neg hne]

theorem compareAndParse_eq_ok {α : Type} (hmac : String → String → String)
    (jsonParse : String → Option α) (secret payload sp : String) (ev : α)
    (hp : jsonParse payload = some ev) :
    compareAndParse hmac jsonParse secret payload sp (hmac secret sp) = .ok ev := by
  unfold compareAndParse
  rw [if_pos rfl, if_pos rfl, hp]

/-- Unfolding `verify` once the extracted digest is known and the extracted
timestamp does not trigger the tolerance throw: the result is the
compare-and-parse step over the signing payload of line 60. -/
theorem verify_eq_compare {α : Type} (hmac : String → String → String)
    (jsonParse : String → Option α) (now : Int)
    (payload signature secret : String) (tolerance : Int) (d : String)
    (hv : truthyVal (rawV1 signature) = some d)
    (hw : withinWindow (extractTs signature) now tolerance = true) :
    verify hmac jsonParse now payload signature secret tolerance =
      compareAndParse hmac jsonParse secret payload
        (signingStringOf (extractTs signature) payload) d := by
  unfold verify
  unfold withinWindow at hw
  rw [hv]
  cases htso : truthyVal (extractTs signature) with
  | none =>
    unfold signingStringOf
    rw [htso]
  | some ts =>
    unfold signingStringOf
    rw [htso]
    rw [htso] at hw
    dsimp only at hw ⊢
    cases hp : parseIntJS ts with
    | none => rfl
    | some t =>
      rw [hp] at hw
      dsimp only at hw ⊢
      rw [decide_eq_true_eq] at hw
      rw [if_neg (not_lt.mpr hw)]

/-! ## Claim theorems -/

/-- C1: the claim says a v1 digest whose byte length differs from the
64-byte expected hex digest makes `Webhooks.verify` fail with
InvalidSignature and nothing else. The code instead reaches
`crypto.timingSafeEqual` with buffers of unequal byte length, which throws
a `RangeError` (modelled as `rangeError`), an error distinct from
`'Invalid webhook signature'`: for every extracted digest `d` whose UTF-8
byte length differs from the expected digest's, with any extracted
timestamp inside the tolerance window, `verify` ends in `rangeError`. -/
theorem webhook_length_mismatch_crashes {α : Type} (hmac : String → String → String)
    (jsonParse : String → Option α) (now : Int)
    (payload signature secret : String) (tolerance : Int) (d : String)
    (hv : truthyVal (rawV1 signature) = some d)
    (hw : withinWindow (extractTs signature) now tolerance = true)
    (hlen : utf8ByteLen d ≠
      utf8ByteLen (hmac secret (signingStringOf (extractTs signature) payload))) :
    verify hmac jsonParse now payload signature secret tolerance = .rangeError := by
  rw [verify_eq_compare hmac jsonParse now payload signature secret tolerance d hv hw]
  exact compareAndParse_len_ne hmac jsonParse secret payload _ d hlen

/-- Witness for the C1 theorem: the 3-byte digest `abc` against a 64-byte
expected digest ends in the `RangeError` outcome, not InvalidSignature. -/
theorem webhook_length_mismatch_crashes_witness :
    truthyVal (rawV1 "v1=abc") = some "abc" ∧
    withinWindow (extractTs "v1=abc") 0 300 = true ∧
    utf8ByteLen "abc" ≠
      utf8ByteLen (hmacStub "s" (signingStringOf (extractTs "v1=abc") "p")) ∧
    verify hmacStub jsonId 0 "p" "v1=abc" "s" 300 = .rangeError :=
  ⟨by decide, by decide, by decide,
    webhook_length_mismatch_crashes hmacStub jsonId 0 "p" "v1=abc" "s" 300 "abc"
      (by decide) (by decide) (by decide)⟩

/-- C3: with a v1 digest extracted and an extracted timestamp string that
`parseInt` reads as the integer `t`, `Webhooks.verify` fails with
`'Webhook timestamp too old'` exactly when `|now − t|` exceeds
`tolerance × 1000` milliseconds: the window is symmetric around `now`,
rejecting stale and future-skewed timestamps alike, and a timestamp inside
the window never produces the Expired failure. -/
theorem webhook_expired_iff_outside_window {α : Type} (hmac : String → String → String)
    (jsonParse : String → Option α) (now : Int)
    (payload signature secret : String) (tolerance : Int) (d ts : String) (t : Int)
    (hv : truthyVal (rawV1 signature) = some d)
    (hts : truthyVal (extractTs signature) = some ts)
    (ht : parseIntJS ts = some t) :
    verify hmac jsonParse now payload signature secret tolerance = .expired ↔
      |now - t| > tolerance * 1000 := by
  constructor
  · intro h
    by_contra hc
    have hw : withinWindow (extractTs signature) now tolerance = true := by
      unfold withinWindow
      rw [hts]
      dsimp only
      rw [ht]
      exact decide_eq_true (not_lt.mp hc)
    rw [verify_eq_compare hmac jsonParse now payload signature secret tolerance d hv hw] at h
    exact compareAndParse_ne_expired hmac jsonParse secret payload _ d h
  · intro h
    unfold verify
    rw [hv, hts]
    dsimp only
    rw [ht]
    dsimp only
    rw [if_pos h]

/-- Witness for the C3 theorem, both directions at concrete inputs: with
timestamp 1000 and tolerance 300 s, `now = 302000` is rejected as Expired
(evaluated directly) and the bound `|301000 − 1000| ≤ 300000` shows the
threshold is exactly `tolerance × 1000`. -/
theorem webhook_expired_iff_outside_window_witness :
    truthyVal (rawV1 ("t=1000,v1=" ++ hexB64)) = some hexB64 ∧
    truthyVal (extractTs ("t=1000,v1=" ++ hexB64)) = some "1000" ∧
    parseIntJS "1000" = some 1000 ∧
    (verify hmacStub jsonId 302000 "p" ("t=1000,v1=" ++ hexB64) "s" 300 = .expired ↔
      |(302000 : Int) - 1000| > 300 * 1000) ∧
    verify hmacStub jsonId 302000 "p" ("t=1000,v1=" ++ hexB64) "s" 300 = .expired :=
  ⟨by decide, by decide, by decide,
    webhook_expired_iff_outside_window hmacStub jsonId 302000 "p" ("t=1000,v1=" ++ hexB64)
      "s" 300 hexB64 "1000" 1000 (by decide) (by decide) (by decide),
    (webhook_expired_iff_outside_window hmacStub jsonId 302000 "p" ("t=1000,v1=" ++ hexB64)
      "s" 300 hexB64 "1000" 1000 (by decide) (by decide) (by decide)).mpr (by decide)⟩

/-- C4: a digest of the correct 64-byte length whose content differs from
the expected hex HMAC digest — with any extracted timestamp inside the
tolerance window — makes `Webhooks.verify` fail with
`'Invalid webhook signature'`, not a format or length error. -/
theorem webhook_wrong_digest_invalid_signature {α : Type} (hmac : String → String → String)
    (jsonParse : String → Option α) (now : Int)
    (payload signature secret : String) (tolerance : Int) (d : String)
    (hv : truthyVal (rawV1 signature) = some d)
    (hw : withinWindow (extractTs signature) now tolerance = true)
    (hd64 : utf8ByteLen d = 64)
    (he64 : utf8ByteLen (hmac secret (signingStringOf (extractTs signature) payload)) = 64)
    (hne : d ≠ hmac secret (signingStringOf (extractTs signature) payload)) :
    verify hmac jsonParse now payload signature secret tolerance = .invalidSignature := by
  rw [verify_eq_compare hmac jsonParse now payload signature secret tolerance d hv hw]
  exact compareAndParse_content_ne hmac jsonParse secret payload _ d
    (hd64.trans he64.symm) hne

/-- Witness for the C4 theorem: 64 `'a'` characters against a 64-character
expected digest of `'b'`s, with a current timestamp, fails with
InvalidSignature. -/
theorem webhook_wrong_digest_invalid_signature_witness :
    truthyVal (rawV1 ("t=5,v1=" ++ hexA64)) = some hexA64 ∧
    withinWindow (extractTs ("t=5,v1=" ++ hexA64)) 5 300 = true ∧
    utf8ByteLen hexA64 = 64 ∧
    hexA64 ≠ hmacStub "s" (signingStringOf (extractTs ("t=5,v1=" ++ hexA64)) "p") ∧
    verify hmacStub jsonId 5 "p" ("t=5,v1=" ++ hexA64) "s" 300 = .invalidSignature :=
  ⟨by decide, by decide, by decide, by decide,
    webhook_wrong_digest_invalid_signature hmacStub jsonId 5 "p" ("t=5,v1=" ++ hexA64)
      "s" 300 hexA64 (by decide) (by decide) (by decide) (by decide) (by decide)⟩

/-- C6: when the comma-separated parts of the signature header yield no
truthy `v1` value and the header does not itself start with `v1=` followed
by a non-empty remainder, `Webhooks.verify` throws
`'Invalid signature format'` — for every HMAC oracle and JSON parser, so
before any HMAC computation or digest comparison can be observed. -/
theorem webhook_missing_v1_invalid_format {α : Type} (hmac : String → String → String)
    (jsonParse : String → Option α) (now : Int)
    (payload signature secret : String) (tolerance : Int)
    (h1 : truthyVal (loopExtract signature).2 = none)
    (h2 : ¬(startsWithJs "v1=" signature = true ∧ strDrop 3 signature ≠ "")) :
    verify hmac jsonParse now payload signature secret tolerance = .invalidFormat := by
  have hraw : truthyVal (rawV1 signature) = none := by
    unfold rawV1
    dsimp only
    rw [h1]
    dsimp only
    by_cases hs : startsWithJs "v1=" signature = true
    · rw [if_pos hs]
      have hempty : strDrop 3 signature = "" := by
        by_contra hne
        exact h2 ⟨hs, hne⟩
      rw [hempty]
      rfl
    · rw [if_neg hs]
      exact h1
  unfold verify
  rw [hraw]

/-- Witness for the C6 theorem: the header `t=123456789` of the spec's
scenario fails with InvalidFormat. -/
theorem webhook_missing_v1_invalid_format_witness :
    truthyVal (loopExtract "t=123456789").2 = none ∧
    ¬(startsWithJs "v1=" "t=123456789" = true ∧ strDrop 3 "t=123456789" ≠ "") ∧
    verify hmacStub jsonId 0 "p" "t=123456789" "s" 300 = .invalidFormat :=
  ⟨by decide, by decide,
    webhook_missing_v1_invalid_format hmacStub jsonId 0 "p" "t=123456789" "s" 300
      (by decide) (by decide)⟩

/-- C9: when the extracted timestamp string does not parse as an integer
(`parseInt` yields `NaN`), `Webhooks.verify` never fails with Expired —
for every `now` and every tolerance — and the non-numeric string is still
used verbatim as the prefix of the signing string `ts.payload`, so the
replay-window check is silently bypassed. -/
theorem webhook_nan_timestamp_bypasses_window {α : Type} (hmac : String → String → String)
    (jsonParse : String → Option α) (payload signature secret : String) (d ts : String)
    (hv : truthyVal (rawV1 signature) = some d)
    (hts : truthyVal (extractTs signature) = some ts)
    (hnan : parseIntJS ts = none) :
    (∀ now tolerance : Int, verify hmac jsonParse now payload signature secret tolerance =
      compareAndParse hmac jsonParse secret payload (ts ++ "." ++ payload) d) ∧
    (∀ now tolerance : Int,
      verify hmac jsonParse now payload signature secret tolerance ≠ .expired) := by
  have key : ∀ now tolerance : Int,
      verify hmac jsonParse now payload signature secret tolerance =
        compareAndParse hmac jsonParse secret payload (ts ++ "." ++ payload) d := by
    intro now tolerance
    unfold verify
    rw [hv, hts]
    dsimp only
    rw [hnan]
  refine ⟨key, fun now tolerance h => ?_⟩
  exact compareAndParse_ne_expired hmac jsonParse secret payload (ts ++ "." ++ payload) d
    ((key now tolerance).symm.trans h)

/-- Witness for the C9 theorem: header `t=abc,v1=<64 hex chars>` with the
non-numeric timestamp `abc`; at `now = 0`, tolerance 300, the result is the
comparison over signing string `abc.p` and not Expired. -/
theorem webhook_nan_timestamp_bypasses_window_witness :
    truthyVal (rawV1 ("t=abc,v1=" ++ hexB64)) = some hexB64 ∧
    truthyVal (extractTs ("t=abc,v1=" ++ hexB64)) = some "abc" ∧
    parseIntJS "abc" = none ∧
    verify hmacStub jsonId 0 "p" ("t=abc,v1=" ++ hexB64) "s" 300 =
      compareAndParse hmacStub jsonId "s" "p" ("abc" ++ "." ++ "p") hexB64 ∧
    verify hmacStub jsonId 0 "p" ("t=abc,v1=" ++ hexB64) "s" 300 ≠ .expired :=
  ⟨by decide, by decide, by decide,
    (webhook_nan_timestamp_bypasses_window hmacStub jsonId "p" ("t=abc,v1=" ++ hexB64)
      "s" hexB64 "abc" (by decide) (by decide) (by decide)).1 0 300,
    (webhook_nan_timestamp_bypasses_window hmacStub jsonId "p" ("t=abc,v1=" ++ hexB64)
      "s" hexB64 "abc" (by decide) (by decide) (by decide)).2 0 300⟩

/-- C5: on a non-success HTTP status the thrown error is determined by the
status code — 401 an AuthenticationError, 400 a ValidationError, 404 a
NotFoundError whose message uses the fixed placeholder
`'Resource not found'`, 429 a RateLimitError, and any other non-2xx the
generic LoopError carrying the decoded body's code and message and the
response status; when the body fails to decode, the substituted generic
body has code `'unknown'` and message `'An error occurred'` (visible here
through `Option.getD`). -/
theorem request_nonsuccess_status_mapping {α : Type}
    (decodeE : String → Option ErrorBody) (decodeS : String → Option α)
    (status : Nat) (body : String)
    (hok : responseOk status = false) :
    request decodeE decodeS (.response status body) =
      (if status = 401 then
        .failure ⟨"AuthenticationError", "authentication_error",
          ((decodeE body).getD ⟨"unknown", "An error occurred"⟩).message, 401⟩
      else if status = 400 then
        .failure ⟨"ValidationError", "validation_error",
          ((decodeE body).getD ⟨"unknown", "An error occurred"⟩).message, 400⟩
      else if status = 404 then
        .failure ⟨"NotFoundError", "not_found", "Resource not found", 404⟩
      else if status = 429 then
        .failure ⟨"RateLimitError", "rate_limit", "Too many requests", 429⟩
      else
        .failure ⟨"LoopError", ((decodeE body).getD ⟨"unknown", "An error occurred"⟩).code,
          ((decodeE body).getD ⟨"unknown", "An error occurred"⟩).message, status⟩) := by
  unfold request mkAuthenticationError mkValidationError mkNotFoundError mkRateLimitError
    mkLoopError
  dsimp only
  rw [hok]
  simp only [Bool.false_eq_true, if_false]
  have hres : "Resource" ++ " not found" = "Resource not found" := rfl
  rw [hres]

/-- Witness for the C5 theorem: a 500 response whose error body does not
decode yields the generic LoopError with the substituted unknown body. -/
theorem request_nonsuccess_status_mapping_witness :
    responseOk 500 = false ∧
    request decodeErrNone decodeSuccNone (FetchOutcome.response 500 "x") =
      RequestResult.failure ⟨"LoopError", "unknown", "An error occurred", 500⟩ :=
  ⟨by decide,
    (request_nonsuccess_status_mapping decodeErrNone decodeSuccNone 500 "x"
      (by decide)).trans (by decide)⟩

/-- C7: a transport-level failure before any response is classified into
exactly one of two errors: an abort (the timeout's `controller.abort()`)
yields the Timeout `LoopError` with code `'timeout'`, message
`'Request timed out'` and status 408, while every other transport failure
yields the Network `LoopError` with code `'network_error'`, status 0, and
the underlying `Error`'s message (or `'Network error'` for a non-`Error`
rejection value). -/
theorem request_transport_failure_classification {α : Type}
    (decodeE : String → Option ErrorBody) (decodeS : String → Option α) :
    (request decodeE decodeS .abortError =
      .failure ⟨"LoopError", "timeout", "Request timed out", 408⟩) ∧
    (∀ m : String, request decodeE decodeS (.transportError (some m)) =
      .failure ⟨"LoopError", "network_error", m, 0⟩) ∧
    (request decodeE decodeS (.transportError none) =
      .failure ⟨"LoopError", "network_error", "Network error", 0⟩) :=
  ⟨rfl, fun _ => rfl, rfl⟩

/-- C8: a non-GET request with an absent body argument sends the JSON
serialization of the empty object — the string of an opening and closing
brace — never an absent body; a GET request attaches no body regardless of
the body argument. -/
theorem request_body_empty_object_default {β : Type} (stringify : β → String)
    (emptyObject : β) (method : String) (b : Option β)
    (hm : method ≠ "GET") (he : stringify emptyObject = "\x7b\x7d") :
    outgoingBody stringify emptyObject method none = some "\x7b\x7d" ∧
    outgoingBody stringify emptyObject "GET" b = none := by
  constructor
  · simp [outgoingBody, hm, he]
  · simp [outgoingBody]

/-- Witness for the C8 theorem at method `POST` with a unit body type. -/
theorem request_body_empty_object_default_witness :
    "POST" ≠ "GET" ∧
    outgoingBody stringifyUnit () "POST" none = some "\x7b\x7d" ∧
    outgoingBody stringifyUnit () "GET" (some ()) = none :=
  ⟨by decide,
    (request_body_empty_object_default stringifyUnit () "POST" (some ())
      (by decide) rfl).1,
    (request_body_empty_object_default stringifyUnit () "POST" (some ())
      (by decide) rfl).2⟩

/-- C10 counterexample: a 200 response whose body fails to decode as JSON
does not produce any `LoopError` (in particular not the claimed
`network_error` / status 0 error): because line 77 returns
`response.json()` without `await`, the decode rejection escapes the
`catch` and the call settles as the raw uncaught `SyntaxError`. -/
theorem request_bad_json_body_not_network_error :
    request decodeErrNone decodeSuccNone (FetchOutcome.response 200 "oops") =
      RequestResult.uncaughtJsonError ∧
    isLoopErrorResult
      (request decodeErrNone decodeSuccNone (FetchOutcome.response 200 "oops")) = false :=
  ⟨by decide, by decide⟩

/-- C10 as amended: a 2xx response other than 204 whose body is not valid
JSON makes the call fail with the raw JSON decode error itself
(`uncaughtJsonError`), not with any classified `LoopError`: the promise
returned by `response.json()` is not awaited inside the `try`, so its
rejection bypasses the `catch` handler. -/
theorem request_bad_json_body_uncaught {α : Type}
    (decodeE : String → Option ErrorBody) (decodeS : String → Option α)
    (status : Nat) (body : String)
    (h1 : responseOk status = true) (h2 : status ≠ 204) (h3 : decodeS body = none) :
    request decodeE decodeS (.response status body) = .uncaughtJsonError := by
  unfold request
  dsimp only
  rw [h1]
  simp only [if_true]
  rw [if_neg h2, h3]

/-- Witness for the amended C10 theorem at a 200 response. -/
theorem request_bad_json_body_uncaught_witness :
    responseOk 200 = true ∧ (200 : Nat) ≠ 204 ∧ decodeSuccNone "oops" = none ∧
    request decodeErrNone decodeSuccNone (FetchOutcome.response 200 "oops") =
      RequestResult.uncaughtJsonError :=
  ⟨by decide, by decide, by decide,
    request_bad_json_body_uncaught decodeErrNone decodeSuccNone 200 "oops"
      (by decide) (by decide) (by decide)⟩

/-! ## Parsing a well-formed header built by the documented algorithm -/

theorem mk_ne_empty {l : List Char} (h : l ≠ []) : String.mk l ≠ "" :=
  fun he => h (congrArg String.data he)

theorem truthyVal_some_of_ne {s : String} (h : s ≠ "") : truthyVal (some s) = some s := by
  simp [truthyVal, h]

theorem sigEntryStep_t (acc : Option String × Option String) (tsL : List Char)
    (h : ∀ c ∈ tsL, c.isDigit = true) :
    sigEntryStep acc (String.mk ('t' :: '=' :: tsL)) = (some (String.mk tsL), acc.2) := by
  have hns : ∀ c ∈ ('t' :: '=' :: tsL), isJsSpace c = false := by
    intro c hc
    rcases List.mem_cons.mp hc with rfl | hc
    · decide
    rcases List.mem_cons.mp hc with rfl | hc
    · decide
    · exact digit_not_space (h c hc)
  have hsplit : splitListOn '=' ('t' :: '=' :: tsL) = ['t'] :: [tsL] := by
    have h1 := splitListOn_append '=' ['t'] tsL
      (by intro c hc; rw [List.mem_singleton] at hc; subst hc; decide)
    simp only [List.cons_append, List.nil_append] at h1
    rw [h1, splitListOn_no_sep '=' tsL (fun c hc => digit_ne (h c hc) (by decide))]
  unfold sigEntryStep jsSplit jsTrim
  dsimp only
  rw [trimList_eq_self hns, hsplit]
  dsimp only [List.map]
  simp

theorem sigEntryStep_v1 (acc : Option String × Option String) (dL : List Char)
    (h : ∀ c ∈ dL, isHexChar c = true) :
    sigEntryStep acc (String.mk ('v' :: '1' :: '=' :: dL)) = (acc.1, some (String.mk dL)) := by
  have hns : ∀ c ∈ ('v' :: '1' :: '=' :: dL), isJsSpace c = false := by
    intro c hc
    rcases List.mem_cons.mp hc with rfl | hc
    · decide
    rcases List.mem_cons.mp hc with rfl | hc
    · decide
    rcases List.mem_cons.mp hc with rfl | hc
    · decide
    · exact hex_not_space (h c hc)
  have hsplit : splitListOn '=' ('v' :: '1' :: '=' :: dL) = ['v', '1'] :: [dL] := by
    have h1 := splitListOn_append '=' ['v', '1'] dL
      (by intro c hc; rcases List.mem_cons.mp hc with rfl | hc
          · decide
          · rw [List.mem_singleton] at hc; subst hc; decide)
    simp only [List.cons_append, List.nil_append] at h1
    rw [h1, splitListOn_no_sep '=' dL (fun c hc => hex_ne (h c hc) (by decide))]
  unfold sigEntryStep jsSplit jsTrim
  dsimp only
  rw [trimList_eq_self hns, hsplit]
  dsimp only [List.map]
  simp

theorem loopExtract_ts_form (tsL dL : List Char)
    (hts : ∀ c ∈ tsL, c.isDigit = true) (hd : ∀ c ∈ dL, isHexChar c = true) :
    loopExtract (String.mk (('t' :: '=' :: tsL) ++ ',' :: 'v' :: '1' :: '=' :: dL)) =
      (some (String.mk tsL), some (String.mk dL)) := by
  have hsplit : splitListOn ',' (('t' :: '=' :: tsL) ++ ',' :: 'v' :: '1' :: '=' :: dL) =
      ('t' :: '=' :: tsL) :: [('v' :: '1' :: '=' :: dL)] := by
    rw [splitListOn_append ',' _ _ (by
      intro c hc
      rcases List.mem_cons.mp hc with rfl | hc
      · decide
      rcases List.mem_cons.mp hc with rfl | hc
      · decide
      · exact digit_ne (hts c hc) (by decide))]
    rw [splitListOn_no_sep ',' _ (by
      intro c hc
      rcases List.mem_cons.mp hc with rfl | hc
      · decide
      rcases List.mem_cons.mp hc with rfl | hc
      · decide
      rcases List.mem_cons.mp hc with rfl | hc
      · decide
      · exact hex_ne (hd c hc) (by decide))]
  unfold loopExtract jsSplit
  dsimp only
  rw [hsplit]
  dsimp only [List.map, List.foldl]
  rw [sigEntryStep_t (none, none) tsL hts, sigEntryStep_v1 _ dL hd]

theorem loopExtract_bare_form (dL : List Char) (hd : ∀ c ∈ dL, isHexChar c = true) :
    loopExtract (String.mk ('v' :: '1' :: '=' :: dL)) = (none, some (String.mk dL)) := by
  have hsplit : splitListOn ',' ('v' :: '1' :: '=' :: dL) = [('v' :: '1' :: '=' :: dL)] :=
    splitListOn_no_sep ',' _ (by
      intro c hc
      rcases List.mem_cons.mp hc with rfl | hc
      · decide
      rcases List.mem_cons.mp hc with rfl | hc
      · decide
      rcases List.mem_cons.mp hc with rfl | hc
      · decide
      · exact hex_ne (hd c hc) (by decide))
  unfold loopExtract jsSplit
  dsimp only
  rw [hsplit]
  dsimp only [List.map, List.foldl]
  rw [sigEntryStep_v1 (none, none) dL hd]

theorem rawV1_ts_form (tsL dL : List Char)
    (hts : ∀ c ∈ tsL, c.isDigit = true) (hd : ∀ c ∈ dL, isHexChar c = true)
    (hdne : dL ≠ []) :
    truthyVal (rawV1 (String.mk (('t' :: '=' :: tsL) ++ ',' :: 'v' :: '1' :: '=' :: dL))) =
      some (String.mk dL) := by
  unfold rawV1
  dsimp only
  rw [loopExtract_ts_form tsL dL hts hd]
  dsimp only
  rw [truthyVal_some_of_ne (mk_ne_empty hdne)]
  exact truthyVal_some_of_ne (mk_ne_empty hdne)

theorem extractTs_ts_form (tsL dL : List Char)
    (hts : ∀ c ∈ tsL, c.isDigit = true) (hd : ∀ c ∈ dL, isHexChar c = true)
    (htsne : tsL ≠ []) :
    truthyVal (extractTs (String.mk (('t' :: '=' :: tsL) ++ ',' :: 'v' :: '1' :: '=' :: dL))) =
      some (String.mk tsL) := by
  unfold extractTs
  dsimp only
  rw [loopExtract_ts_form tsL dL hts hd]
  dsimp only
  rw [truthyVal_some_of_ne (mk_ne_empty htsne)]
  exact truthyVal_some_of_ne (mk_ne_empty htsne)

theorem rawV1_bare_form (dL : List Char) (hd : ∀ c ∈ dL, isHexChar c = true)
    (hdne : dL ≠ []) :
    truthyVal (rawV1 (String.mk ('v' :: '1' :: '=' :: dL))) = some (String.mk dL) := by
  unfold rawV1
  dsimp only
  rw [loopExtract_bare_form dL hd]
  dsimp only
  rw [truthyVal_some_of_ne (mk_ne_empty hdne)]
  exact truthyVal_some_of_ne (mk_ne_empty hdne)

theorem extractTs_bare_form (dL : List Char) (hd : ∀ c ∈ dL, isHexChar c = true) :
    truthyVal (extractTs (String.mk ('v' :: '1' :: '=' :: dL))) = none := by
  have hpf : startsWithJs "t=" (String.mk ('v' :: '1' :: '=' :: dL)) = false := by
    simp +decide [startsWithJs, List.isPrefixOf]
  have hsplit : splitListOn ',' ('v' :: '1' :: '=' :: dL) = [('v' :: '1' :: '=' :: dL)] :=
    splitListOn_no_sep ',' _ (by
      intro c hc
      rcases List.mem_cons.mp hc with rfl | hc
      · decide
      rcases List.mem_cons.mp hc with rfl | hc
      · decide
      rcases List.mem_cons.mp hc with rfl | hc
      · decide
      · exact hex_ne (hd c hc) (by decide))
  unfold extractTs jsSplit
  dsimp only
  rw [loopExtract_bare_form dL hd]
  dsimp only [truthyVal]
  rw [hsplit]
  dsimp only [List.map]
  rw [List.find?_cons_of_neg _ (by rw [hpf]; exact Bool.false_ne_true), List.find?_nil]

/-- C2: for every payload, secret, and decimal timestamp string within the
tolerance window of `now`, a header built by the documented algorithm —
`t=<ts>,v1=<hex HMAC over "<ts>.<payload>">`, or the bare
`v1=<hex HMAC over the payload>` with no timestamp — makes
`Webhooks.verify` with the same secret succeed and return the JSON parse
of the payload. The digest hypotheses (non-empty, hex characters only)
hold of every hex HMAC-SHA256 digest. -/
theorem webhook_roundtrip_verifies {α : Type} (hmac : String → String → String)
    (jsonParse : String → Option α) (now : Int) (payload secret tsStr : String)
    (tolerance : Int) (ev : α)
    (h1 : tsStr.data ≠ [])
    (h2 : ∀ c ∈ tsStr.data, c.isDigit = true)
    (h3 : |now - (natOfDigits tsStr.data : Int)| ≤ tolerance * 1000)
    (h4 : (hmac secret (tsStr ++ "." ++ payload)).data ≠ [])
    (h5 : ∀ c ∈ (hmac secret (tsStr ++ "." ++ payload)).data, isHexChar c = true)
    (h6 : (hmac secret payload).data ≠ [])
    (h7 : ∀ c ∈ (hmac secret payload).data, isHexChar c = true)
    (h8 : jsonParse payload = some ev) :
    verify hmac jsonParse now payload
      ("t=" ++ tsStr ++ ",v1=" ++ hmac secret (tsStr ++ "." ++ payload)) secret tolerance
      = .ok ev ∧
    verify hmac jsonParse now payload ("v1=" ++ hmac secret payload) secret tolerance
      = .ok ev := by
  have e1 : ("t=" : String).data = ['t', '='] := rfl
  have e2 : (",v1=" : String).data = [',', 'v', '1', '='] := rfl
  have e3 : ("v1=" : String).data = ['v', '1', '='] := rfl
  constructor
  · have hh : ("t=" ++ tsStr ++ ",v1=" ++ hmac secret (tsStr ++ "." ++ payload)) =
        String.mk (('t' :: '=' :: tsStr.data) ++ ',' :: 'v' :: '1' :: '=' ::
          (hmac secret (tsStr ++ "." ++ payload)).data) := by
      apply string_eq_of_data
      simp [data_append, e1, e2, List.append_assoc, List.cons_append]
    rw [hh]
    have hv := rawV1_ts_form tsStr.data (hmac secret (tsStr ++ "." ++ payload)).data h2 h5 h4
    have hts := extractTs_ts_form tsStr.data (hmac secret (tsStr ++ "." ++ payload)).data h2 h5 h1
    have hw : withinWindow (extractTs (String.mk (('t' :: '=' :: tsStr.data) ++
        ',' :: 'v' :: '1' :: '=' :: (hmac secret (tsStr ++ "." ++ payload)).data)))
        now tolerance = true := by
      unfold withinWindow
      rw [hts]
      dsimp only
      rw [parseIntJS_digits tsStr.data h1 h2]
      exact decide_eq_true h3
    rw [verify_eq_compare hmac jsonParse now payload _ secret tolerance _ hv hw]
    have hsso : signingStringOf (extractTs (String.mk (('t' :: '=' :: tsStr.data) ++
        ',' :: 'v' :: '1' :: '=' :: (hmac secret (tsStr ++ "." ++ payload)).data))) payload =
        tsStr ++ "." ++ payload := by
      unfold signingStringOf
      rw [hts]
    rw [hsso]
    exact compareAndParse_eq_ok hmac jsonParse secret payload (tsStr ++ "." ++ payload) ev h8
  · have hh : ("v1=" ++ hmac secret payload) =
        String.mk ('v' :: '1' :: '=' :: (hmac secret payload).data) := by
      apply string_eq_of_data
      simp [data_append, e3, List.cons_append]
    rw [hh]
    have hv := rawV1_bare_form (hmac secret payload).data h7 h6
    have hts := extractTs_bare_form (hmac secret payload).data h7
    have hw : withinWindow (extractTs (String.mk
        ('v' :: '1' :: '=' :: (hmac secret payload).data))) now tolerance = true := by
      unfold withinWindow
      rw [hts]
    rw [verify_eq_compare hmac jsonParse now payload _ secret tolerance _ hv hw]
    have hsso : signingStringOf (extractTs (String.mk
        ('v' :: '1' :: '=' :: (hmac secret payload).data))) payload = payload := by
      unfold signingStringOf
      rw [hts]
    rw [hsso]
    exact compareAndParse_eq_ok hmac jsonParse secret payload payload ev h8

/-- Witness for the C2 theorem: payload `null` (valid JSON), secret `sec`,
timestamp string `5` at `now = 5`, tolerance 300; both header forms
verify and return the parsed payload. -/
theorem webhook_roundtrip_verifies_witness :
    ("5" : String).data ≠ [] ∧
    (∀ c ∈ ("5" : String).data, c.isDigit = true) ∧
    |(5 : Int) - (natOfDigits ("5" : String).data : Int)| ≤ 300 * 1000 ∧
    jsonId "null" = some "null" ∧
    verify hmacStub jsonId 5 "null"
      ("t=" ++ "5" ++ ",v1=" ++ hmacStub "sec" ("5" ++ "." ++ "null")) "sec" 300
      = .ok "null" ∧
    verify hmacStub jsonId 5 "null" ("v1=" ++ hmacStub "sec" "null") "sec" 300
      = .ok "null" :=
  ⟨by decide, by decide, by decide, rfl,
    (webhook_roundtrip_verifies hmacStub jsonId 5 "null" "sec" "5" 300 "null"
      (by decide) (by decide) (by decide) (by decide) (by decide) (by decide) (by decide)
      rfl).1,
    (webhook_roundtrip_verifies hmacStub jsonId 5 "null" "sec" "5" 300 "null"
      (by decide) (by decide) (by decide) (by decide) (by decide) (by decide) (by decide)
      rfl).2⟩

end PayloopsSdk
